import Mathlib

/-!
Verification of the care-intake application (`app_new.py`, `admin_portal.py`,
`prompt_loader.py`) against its natural-language specification.

The development is a shallow embedding: each Python function relevant to a
claim is translated into an executable Lean definition, and the claims are
proved (or refuted) as theorems about those definitions.  Python dictionaries
are modelled as association lists (insertion order preserved, as in CPython),
Python strings as Lean `String`/`List Char`, numbers compared by the vitals
analyser as `ℚ`, and the flat-file persistence layer as explicit state
passing.  Wall-clock timestamps are threaded through as parameters.
-/

namespace CareAI

/-! ### Python string primitives

`str.strip`, `str.lower`, `str.endswith` restricted to the ASCII strings the
application manipulates.  The whitespace set is Python's ASCII whitespace. -/

def pyIsSpace (c : Char) : Bool :=
  c = ' ' || c = '\t' || c = '\n' || c = '\r' || c = '\x0b' || c = '\x0c'

def pyStripChars (l : List Char) : List Char :=
  ((l.dropWhile pyIsSpace).reverse.dropWhile pyIsSpace).reverse

/-- Python `s.strip()`. -/
def pyStrip (s : String) : String := ⟨pyStripChars s.data⟩

/-- Python `s.lower()` (ASCII). -/
def pyLower (s : String) : String := ⟨s.data.map Char.toLower⟩

/-- Does `l` start with `pre`? (helper for the substring test). -/
def prefAt : List Char → List Char → Bool
  | [], _ => true
  | _ :: _, [] => false
  | a :: as, b :: bs => a = b && prefAt as bs

/-- Python `needle in hay` for strings, on character lists. -/
def subStrAt (needle : List Char) : List Char → Bool
  | [] => prefAt needle []
  | b :: bs => prefAt needle (b :: bs) || subStrAt needle bs

/-- Does `l` end with `suf`? Python `s.endswith(suf)`. -/
def pyEndsWith (s suf : String) : Bool := prefAt suf.data.reverse s.data.reverse

/-- The statement "`hay` contains `needle` as a contiguous substring". -/
def ContainsSub (needle hay : List Char) : Prop :=
  ∃ pre post, hay = pre ++ needle ++ post

/-! ### Association-list dictionaries -/

/-- Python `d.get(k)` on an association list. -/
def alookup {α : Type} (k : String) : List (String × α) → Option α
  | [] => none
  | (k', v) :: rest => if k' = k then some v else alookup k rest

/-- Python `d[k] = v`: replace in place if the key exists, else append. -/
def dictSet {α : Type} (l : List (String × α)) (k : String) (v : α) :
    List (String × α) :=
  if l.any (fun kv => kv.1 = k) then
    l.map (fun kv => if kv.1 = k then (k, v) else kv)
  else l ++ [(k, v)]

/-! ### Python values

Form fields are strings; AI payloads and file metadata are nested
dictionaries / lists; `None`, booleans and numbers also occur (e.g. the
`True` flags saved by `complete_assessment`). -/

inductive PyVal where
  | none
  | str (s : String)
  | bool (b : Bool)
  | num (n : Int)
  | dict (entries : List (String × PyVal))
  | list (elems : List PyVal)

/-! ### `is_valid_value` (app_new.py, inside `save_step_based_patient_data`)

Faithful translation of the per-field validity filter. -/

def text_input_medical_fields : List String :=
  ["infection_type", "medical_condition", "symptoms",
   "complications", "allergies", "current_medications", "ecg_findings"]

def none_like_values : List String :=
  ["none", "no", "normal", "n/a", "na", "not applicable", "nil", "nothing"]

def isTextMedicalField : Option String → Bool
  | some f => f ∈ text_input_medical_fields
  | Option.none => false

def is_valid_value (value : PyVal) (field_name : Option String) : Bool :=
  match value with
  | .none => false
  | .str s =>
      -- clean_value = value.strip().lower()
      let cv := pyLower (pyStrip s)
      if cv = "" then false
      else if isTextMedicalField field_name ∧ cv ∈ none_like_values then false
      else if field_name = some "ecg_available" ∧ cv = "no" then true
      else true
  | .dict d => !d.isEmpty
  | .list l => !l.isEmpty
  | .bool _ => true
  | .num _ => true

/-- `clean_value` (app_new.py): strip a trailing `-A` / `-O` tag. -/
def clean_value (value : PyVal) : PyVal :=
  match value with
  | .str s =>
      if pyEndsWith s "-A" ∨ pyEndsWith s "-O" then
        .str ⟨s.data.take (s.data.length - 2)⟩
      else .str s
  | v => v

/-- Validity restated from the spec's words (§3, field-validity invariant),
for comparison with the code's `is_valid_value`:
a value is persisted only if it is not `None`, not an empty/whitespace-only
string, not an empty mapping, and not an empty sequence; for the seven text
input medical fields the normalized none-like values are also dropped. -/
def specFieldValidity (value : PyVal) (field : String) : Bool :=
  match value with
  | .none => false
  | .str s =>
      let cv := pyLower (pyStrip s)
      ¬ (cv = "") ∧ ¬ (field ∈ text_input_medical_fields ∧ cv ∈ none_like_values)
  | .dict d => !d.isEmpty
  | .list l => !l.isEmpty
  | .bool _ => true
  | .num _ => true

/-! ### Step-based patient record (app_new.py, `save_step_based_patient_data`)

`session_info` (uuid / iso timestamps / `highest_step_completed`) is metadata
never read by the logic under verification and is not modelled; the wall-clock
instants the code stores are threaded through as a `now : Nat` parameter. -/

structure StepRecord where
  step_name : String
  form_data : List (String × PyVal)
  ai_generated_data : List (String × PyVal)
  files_uploaded : List (String × PyVal)
  timestamp : Nat
  data_source : String
  step_completed : Bool

structure StepStatus where
  completed : Bool
  timestamp : Nat
  form_fields_count : Nat
  ai_fields_count : Nat
  files_count : Nat

/-- The persisted per-session JSON record.  A step key holding the initial
empty dict `{}` (falsy in Python, e.g. for `get_step_data`) is `none`. -/
structure PatientData where
  step1 : Option StepRecord := Option.none
  step2 : Option StepRecord := Option.none
  step3 : Option StepRecord := Option.none
  step4 : Option StepRecord := Option.none
  step5 : Option StepRecord := Option.none
  step6 : Option StepRecord := Option.none
  step7 : Option StepRecord := Option.none
  step_completion_status : List (Nat × StepStatus) := []
  step_completed : Nat := 0

def emptyPatientData : PatientData := {}

def PatientData.getStep (pd : PatientData) : Nat → Option StepRecord
  | 1 => pd.step1
  | 2 => pd.step2
  | 3 => pd.step3
  | 4 => pd.step4
  | 5 => pd.step5
  | 6 => pd.step6
  | 7 => pd.step7
  | _ => Option.none

def PatientData.setStep (pd : PatientData) (n : Nat) (r : StepRecord) :
    PatientData :=
  match n with
  | 1 => { pd with step1 := some r }
  | 2 => { pd with step2 := some r }
  | 3 => { pd with step3 := some r }
  | 4 => { pd with step4 := some r }
  | 5 => { pd with step5 := some r }
  | 6 => { pd with step6 := some r }
  | 7 => { pd with step7 := some r }
  | _ => pd

/-- The `step_name` literal written by each branch of the save. -/
def stepName : Nat → String
  | 1 => "Case Category Selection"
  | 2 => "Patient Registration"
  | 3 => "Vital Signs & Medical Photos"
  | 4 => "Medical Records & Contact Information"
  | 5 => "Complaints & Symptoms"
  | 6 => "Analysis & Diagnosis"
  | 7 => "ICD11 Code Generation & Analysis"
  | _ => ""

/-- The `data_source` literal written by each branch of the save. -/
def stepDataSource : Nat → String
  | 1 => "user_input"
  | 2 => "user_input_and_extraction"
  | 3 => "user_input_and_analysis"
  | 4 => "user_input_and_analysis"
  | 5 => "user_input_and_ai_analysis"
  | 6 => "ai_analysis"
  | 7 => "icd_generation"
  | _ => ""

/-- Filter + clean loop applied to `form_data` and `ai_data`:
keep the fields `is_valid_value` accepts, strip legacy suffixes. -/
def cleanFilter (data : List (String × PyVal)) : List (String × PyVal) :=
  (data.filter (fun kv => is_valid_value kv.2 (some kv.1))).map
    (fun kv => (kv.1, clean_value kv.2))

/-- Filter applied to `files_data`: values kept verbatim. -/
def filterValidFiles (data : List (String × PyVal)) : List (String × PyVal) :=
  data.filter (fun kv => is_valid_value kv.2 (some kv.1))

/-- Key assignment `patient_data['step_completion_status'][step_key] = {...}`
keyed by step number. -/
def statusSet (l : List (Nat × StepStatus)) (k : Nat) (v : StepStatus) :
    List (Nat × StepStatus) :=
  if l.any (fun kv => kv.1 = k) then
    l.map (fun kv => if kv.1 = k then (k, v) else kv)
  else l ++ [(k, v)]

/-- `save_step_based_patient_data`: the cleaned payloads fully replace the
step sub-record (no merge); the completion-status entry is rewritten; the
file-level `step_completed` becomes `max(previous, step_number)`.  A step
number outside 1–7 matches no branch of the `elif` chain but still updates
the status map and the counter, as in the source. -/
def save_step_based_patient_data (step_number : Nat)
    (form_data ai_data files_data : List (String × PyVal)) (now : Nat)
    (pd : PatientData) : PatientData :=
  let cleaned_form_data := cleanFilter form_data
  let cleaned_ai_data := cleanFilter ai_data
  let cleaned_files_data := filterValidFiles files_data
  let pd :=
    if 1 ≤ step_number ∧ step_number ≤ 7 then
      pd.setStep step_number
        { step_name := stepName step_number
          form_data := cleaned_form_data
          ai_generated_data := cleaned_ai_data
          files_uploaded := cleaned_files_data
          timestamp := now
          data_source := stepDataSource step_number
          step_completed := true }
    else pd
  { pd with
    step_completion_status := statusSet pd.step_completion_status step_number
      { completed := true
        timestamp := now
        form_fields_count := cleaned_form_data.length
        ai_fields_count := cleaned_ai_data.length
        files_count := cleaned_files_data.length }
    step_completed := max pd.step_completed step_number }

/-! ### Cookie-session navigation copy and the invalidation cascade

`invalidate_downstream_steps` operates on `session['patient_data']` — the
legacy-shaped copy kept in the browser cookie — clearing the legacy
sub-dictionaries and resetting that copy's `step_completed`. -/

structure SessionData where
  registration : List (String × PyVal) := []
  vitals : List (String × PyVal) := []
  follow_up_questions : List (String × PyVal) := []
  complaints : List (String × PyVal) := []
  complaint_analysis : List (String × PyVal) := []
  diagnosis : List (String × PyVal) := []
  step_completed : Nat := 0

def invalidate_downstream_steps (from_step : Nat) (sess : SessionData) :
    SessionData :=
  if from_step ≤ 1 then
    { sess with registration := [], vitals := [], follow_up_questions := [],
                complaints := [], complaint_analysis := [], diagnosis := [],
                step_completed := from_step }
  else if from_step ≤ 2 then
    { sess with vitals := [], follow_up_questions := [], complaints := [],
                complaint_analysis := [], diagnosis := [],
                step_completed := from_step }
  else if from_step ≤ 3 then
    { sess with follow_up_questions := [], complaints := [],
                complaint_analysis := [], diagnosis := [],
                step_completed := from_step }
  else if from_step ≤ 4 then
    { sess with complaints := [], complaint_analysis := [], diagnosis := [],
                step_completed := from_step }
  else if from_step ≤ 5 then
    { sess with complaint_analysis := [], diagnosis := [],
                step_completed := from_step }
  else if from_step ≤ 6 then
    { sess with diagnosis := [], step_completed := from_step }
  else { sess with step_completed := from_step }

/-! ### HTTP-route layer: step gate and save endpoints

The full server state seen by one session: the persisted JSON file (absent
or empty ↦ `none`) and the cookie-session navigation copy. -/

structure SysState where
  file : Option PatientData := Option.none
  sess : SessionData := {}

/-- `validate_session_step`: load the persisted record; fail when there is
none; otherwise compare its `step_completed` counter with the requirement. -/
def validate_session_step (required_step : Nat) (file : Option PatientData) :
    Bool :=
  match file with
  | Option.none => false
  | some pd => required_step ≤ pd.step_completed

/-- The gate-failure error text each step's save endpoint returns
(`save_registration`, `save_vitals`, `save_step4`, `save_step5`,
`save_step6`, `generate_icd_codes`). -/
def gateError : Nat → String
  | 2 => "Please complete case category selection first"
  | 3 => "Please complete registration first"
  | 4 => "Please complete vitals first"
  | 5 => "Please complete step 4 first"
  | 6 => "Please complete step 5 first"
  | 7 => "Please complete step 6 first"
  | _ => ""

/-- Common shape of the step save endpoints (after HTTP-payload collection,
which is abstracted as the three payload dictionaries):
step 1 (`save_case_category`) has no gate; step `n ≥ 2` first runs
`validate_session_step (n-1)` and fails with its endpoint's error text;
steps 2–5 detect a modification (`get_step_data(n)` truthy) and then run the
session-side invalidation cascade; steps 1–6 store `step_completed := n` in
the session navigation copy (`generate_icd_codes`, saving step 7, does not).
On the error path nothing is written. -/
def step_save_route (n : Nat) (form ai files : List (String × PyVal))
    (now : Nat) (st : SysState) : Except String SysState :=
  if n ≠ 1 ∧ ¬ validate_session_step (n - 1) st.file then
    .error (gateError n)
  else
    let is_modification := ((st.file.getD emptyPatientData).getStep n).isSome
    let pd' := save_step_based_patient_data n form ai files now
      (st.file.getD emptyPatientData)
    let st' : SysState := { st with file := some pd' }
    let st' :=
      if 2 ≤ n ∧ n ≤ 5 ∧ is_modification then
        { st' with sess := invalidate_downstream_steps n st'.sess }
      else st'
    let st' :=
      if n ≤ 6 then
        { st' with sess := { st'.sess with step_completed := n } }
      else st'
    .ok st'

/-- `complete_assessment`: no gate; saves fixed completion flags under the
client-supplied step number via `save_step_based_patient_data`. -/
def complete_assessment_route (step : Nat) (ts : String) (now : Nat)
    (st : SysState) : SysState :=
  let completion_data : List (String × PyVal) :=
    [("assessment_fully_completed", .bool true),
     ("completion_step", .num (Int.ofNat step)),
     ("final_completion_timestamp", .str ts),
     ("user_confirmed_completion", .bool true)]
  let pd' := save_step_based_patient_data step
    [("assessment_fully_completed", .bool true),
     ("completion_confirmed", .bool true)]
    completion_data [] now (st.file.getD emptyPatientData)
  { st with file := some pd' }

/-- `clear_patient_data` / the step-1 entry purge: the session's file is
removed. -/
def clear_route (st : SysState) : SysState := { st with file := Option.none }

/-- States reachable through the gated wizard endpoints (the step save
routes and the file purge), starting from a fresh session. -/
inductive ReachableGated : SysState → Prop
  | init : ReachableGated {}
  | save {st st' : SysState} {n : Nat}
      {form ai files : List (String × PyVal)} {now : Nat} :
      ReachableGated st → step_save_route n form ai files now st = .ok st' →
      ReachableGated st'
  | clear {st : SysState} : ReachableGated st → ReachableGated (clear_route st)

/-! ### Abnormal-vitals analysis (`generate_followup_questions`)

Step 3's form dictionary is split into the numeric view (entries whose string
value Python's `float()` parses; an absent or unparsable vital is skipped by
the loop and is therefore simply absent here) and the qualitative string
fields the route reads directly. -/

structure VitalsInput where
  numeric : List (String × ℚ) := []
  temperature_unit : Option String := Option.none
  ecg_available : Option String := Option.none
  ecg_findings : Option String := Option.none
  lung_congestion : Option String := Option.none
  water_in_lungs : Option String := Option.none

/-- `vitals.get('temperature_unit', 'celsius') == 'fahrenheit'`. -/
def VitalsInput.fahrenheit (v : VitalsInput) : Bool :=
  v.temperature_unit.getD "celsius" = "fahrenheit"

/-- Iteration order of the `normal_ranges` dict. -/
def vitalOrder : List String :=
  ["temperature", "pulse_rate", "systolic_bp", "diastolic_bp",
   "respiratory_rate", "oxygen_saturation", "blood_glucose", "bmi",
   "weight", "height"]

/-- The fixed normal-range table: `(min, max, unit, display name)`;
temperature is unit-aware. -/
def normalRange (fahrenheit : Bool) : String → Option (ℚ × ℚ × String × String)
  | "temperature" =>
      -- 97.0–99.0 °F / 36.1–37.2 °C (tenths written via mkRat so that the
      -- rational constants reduce inside the kernel)
      if fahrenheit then some (97, 99, "°F", "Body Temperature")
      else some (mkRat 361 10, mkRat 372 10, "°C", "Body Temperature")
  | "pulse_rate" => some (60, 100, "bpm", "Pulse Rate")
  | "systolic_bp" => some (90, 120, "mmHg", "Systolic Blood Pressure")
  | "diastolic_bp" => some (60, 80, "mmHg", "Diastolic Blood Pressure")
  | "respiratory_rate" => some (12, 20, "breaths/min", "Respiratory Rate")
  | "oxygen_saturation" => some (95, 100, "%", "Oxygen Saturation")
  | "blood_glucose" => some (70, 140, "mg/dL", "Blood Glucose")
  | "bmi" => some (mkRat 185 10, mkRat 249 10, "kg/m²", "Body Mass Index")
  | "weight" => some (40, 200, "kg", "Weight")
  | "height" => some (140, 220, "cm", "Height")
  | _ => Option.none

/-- The per-vital critical escalation thresholds. -/
def isCriticalValue (fahrenheit : Bool) (name : String) (value : ℚ) : Bool :=
  if name = "temperature" then
    -- critical < 95.0 / > 102.2 °F, < 35.0 / > 39.0 °C
    if fahrenheit then value < 95 ∨ value > mkRat 1022 10
    else value < 35 ∨ value > 39
  else if name = "pulse_rate" then value < 50 ∨ value > 120
  else if name = "systolic_bp" then value < 80 ∨ value > 160
  else if name = "diastolic_bp" then value < 50 ∨ value > 100
  else if name = "oxygen_saturation" then value < 90
  else if name = "blood_glucose" then value < 60 ∨ value > 200
  else if name = "respiratory_rate" then value < 8 ∨ value > 30
  else false

structure VFinding where
  parameter : String
  parameter_name : String
  value : ℚ
  normal_min : ℚ
  normal_max : ℚ
  unit : String
  severity : String
  deviation : String

/-- One turn of the analysis loop: classify one recorded vital. -/
def classifyVital (fahrenheit : Bool) (name : String) (value : ℚ) :
    Option VFinding :=
  match normalRange fahrenheit name with
  | Option.none => Option.none
  | some (mn, mx, u, pname) =>
      if value < mn ∨ value > mx then
        some { parameter := name
               parameter_name := pname
               value := value
               normal_min := mn
               normal_max := mx
               unit := u
               severity :=
                 if isCriticalValue fahrenheit name value then "critical"
                 else "abnormal"
               deviation := if value > mx then "high" else "low" }
      else Option.none

/-- All out-of-range findings, in table order.  The loop accumulates
critical and non-critical findings into two lists; here they are one list
split by severity below, preserving each list's order. -/
def vitalFindings (v : VitalsInput) : List VFinding :=
  vitalOrder.filterMap fun name =>
    match alookup name v.numeric with
    | Option.none => Option.none
    | some value => classifyVital v.fahrenheit name value

def criticalFindings (v : VitalsInput) : List VFinding :=
  (vitalFindings v).filter (fun f => f.severity = "critical")

def abnormalFindings (v : VitalsInput) : List VFinding :=
  (vitalFindings v).filter (fun f => ¬ f.severity = "critical")

/-- The qualitative "concerning" findings: non-trivial ECG findings when an
ECG is available, and non-"none" lung congestion / fluid answers. -/
def concerningFindings (v : VitalsInput) : List (String × String) :=
  (if v.ecg_available.getD "" = "yes" ∧
      (let ef := pyStrip (v.ecg_findings.getD "")
       ¬ ef = "" ∧ ¬ pyLower ef ∈ ["normal", "none", "n/a", "na"]) then
     [("ECG", pyStrip (v.ecg_findings.getD ""))]
   else []) ++
  (let lung := pyStrip (v.lung_congestion.getD "")
   if ¬ lung = "" ∧ ¬ pyLower lung ∈ ["no", "none", "normal"] then
     [("Respiratory", "Lung congestion: " ++ lung)]
   else []) ++
  (let water := pyStrip (v.water_in_lungs.getD "")
   if ¬ water = "" ∧ ¬ pyLower water ∈ ["no", "none", "normal"] then
     [("Respiratory", "Fluid in lungs: " ++ water)]
   else [])

/-- Outcome of the route after the analysis: either the no-LLM normal reply
(question list and message), or an LLM round trip over the findings. -/
inductive FollowupOutcome where
  | normalReply (questions : List String) (message : String)
  | llmCall (findings_count : Nat)

/-- Decision logic of `generate_followup_questions` after the vitals are
collected: with zero findings of any kind the route replies immediately with
an empty question list and skips the LLM entirely. -/
def generate_followup_questions_core (v : VitalsInput) : FollowupOutcome :=
  let all_findings := criticalFindings v ++ abnormalFindings v
  let total_concerns := all_findings.length + (concerningFindings v).length
  if total_concerns = 0 then
    .normalReply []
      "All vital signs appear within normal ranges. No follow-up questions needed."
  else .llmCall total_concerns

/-- Membership of a recorded vital inside its normal band, read off the
same table. -/
def inNormalBand (fahrenheit : Bool) (name : String) (value : ℚ) : Bool :=
  match normalRange fahrenheit name with
  | Option.none => true
  | some (mn, mx, _, _) => mn ≤ value ∧ value ≤ mx

/-! ### Differential elimination protocol (step 7)

The candidate codes travel in the request/response JSON; the LLM's parsed
JSON replies are inputs of the model (an `Option`, `none` standing for an
API error or unparsable reply caught by the `except` block). -/

structure ICDCode where
  code : String
  title : String
  confidence : Int
deriving DecidableEq

/-- Parsed JSON reply of the question-generation LLM call. -/
structure QuestionParse where
  success : Bool
  question : String
  target_code_to_eliminate : String
  reasoning : String
  answer_options : List String
deriving DecidableEq

/-- Parsed JSON reply of the answer-processing LLM call. -/
structure AnswerParse where
  success : Bool
  eliminated_code : String
  reasoning : String
deriving DecidableEq

/-- Validation step of `generate_differential_question_with_llm`: an empty
or out-of-list target is replaced by the *first* available code together
with a synthetic fallback reasoning. -/
def validateTarget (result : QuestionParse) (icd_codes : List ICDCode) :
    QuestionParse :=
  let target_code := pyStrip result.target_code_to_eliminate
  let current_codes := icd_codes.map (fun c => c.code)
  if target_code = "" ∨ ¬ target_code ∈ current_codes then
    { result with
      target_code_to_eliminate := current_codes.headD ""
      reasoning := "Fallback targeting due to invalid LLM response" }
  else result

/-- `generate_differential_question` route: refuses with the at-target error
when two or fewer candidates remain; otherwise returns the validated
LLM question. -/
def generate_differential_question (icd_codes : List ICDCode)
    (llm : Option QuestionParse) : Except String QuestionParse :=
  if icd_codes.length ≤ 2 then
    .error "Cannot eliminate more codes. Already at target of 2 codes."
  else
    match llm with
    | Option.none => .error "Failed to generate differential question"
    | some result =>
        let result := validateTarget result icd_codes
        if ¬ result.success then
          .error "Failed to generate differential question"
        else .ok result

/-- Validation step of `process_answer_with_llm`: an empty or out-of-list
eliminated code falls back to the nominated target if that is still in the
list, else to the last code in the list.  A failed LLM call is handled by
`process_answer_with_llm` below, which falls back to eliminating the last
code outright, or returns `none` when the list is empty. -/
def validateElimination (result : AnswerParse)
    (target_code_to_eliminate : String) (icd_codes : List ICDCode) :
    AnswerParse :=
  let current_codes := icd_codes.map (fun c => c.code)
  let eliminated_code := pyStrip result.eliminated_code
  if eliminated_code = "" ∨ ¬ eliminated_code ∈ current_codes then
    if ¬ target_code_to_eliminate = "" ∧
        target_code_to_eliminate ∈ current_codes then
      { result with
        eliminated_code := target_code_to_eliminate
        reasoning :=
          "Fallback elimination of target code due to invalid LLM response" }
    else
      { result with
        eliminated_code := current_codes.getLastD ""
        reasoning := "Emergency fallback elimination due to LLM error" }
  else result

def process_answer_with_llm (llm : Option AnswerParse)
    (target_code_to_eliminate : String) (icd_codes : List ICDCode) :
    Option AnswerParse :=
  match llm with
  | some result =>
      some (validateElimination result target_code_to_eliminate icd_codes)
  | Option.none =>
      if ¬ icd_codes = [] then
        some { success := true
               eliminated_code := (icd_codes.map (fun c => c.code)).getLastD ""
               reasoning := "Emergency elimination due to system error" }
      else Option.none

/-- `process_differential_answer` route: guard the 2-candidate floor, run
the LLM decision with its fallbacks, re-validate membership, remove the
eliminated code, and verify the list shrank by exactly one. -/
def process_differential_answer (icd_codes : List ICDCode)
    (target_code_to_eliminate : String) (llm : Option AnswerParse) :
    Except String (String × List ICDCode) :=
  if icd_codes.length ≤ 2 then
    .error "Already at target of 2 or fewer codes. Cannot eliminate more."
  else
    match process_answer_with_llm llm target_code_to_eliminate icd_codes with
    | Option.none => .error "Failed to process answer"
    | some result =>
        if ¬ result.success then .error "Failed to process answer"
        else
          let eliminated_code := pyStrip result.eliminated_code
          let current_codes := icd_codes.map (fun c => c.code)
          if ¬ eliminated_code ∈ current_codes then
            .error ("Invalid elimination: Code " ++ eliminated_code ++
              " not in current list")
          else
            let updated_codes :=
              icd_codes.filter (fun c => ¬ c.code = eliminated_code)
            if ¬ updated_codes.length = icd_codes.length - 1 then
              .error "Elimination verification failed"
            else .ok (eliminated_code, updated_codes)

/-! ### Hand-authored fallback diagnosis set (`generate_fallback_icd_diagnosis`) -/

structure FallbackDiagnosis where
  rank : Nat
  icd_code : String
  disease_name : String
  common_name : String
  confidence_percentage : Nat
  evidence_score : String
  supporting_data : List String
  icd_category : String
  clinical_reasoning : String
deriving DecidableEq

def checkupEntry : FallbackDiagnosis :=
  { rank := 1, icd_code := "Z00.00"
    disease_name :=
      "Encounter for general adult medical examination without abnormal findings"
    common_name := "General health checkup"
    confidence_percentage := 70
    evidence_score := "MEDIUM"
    supporting_data := ["Patient presenting for medical assessment"]
    icd_category := "General Medical"
    clinical_reasoning :=
      "Default diagnosis for general medical evaluation without specific abnormal findings" }

def feverEntry : FallbackDiagnosis :=
  { rank := 2, icd_code := "R50.9"
    disease_name := "Fever, unspecified"
    common_name := "Fever of unknown origin"
    confidence_percentage := 50
    evidence_score := "LOW"
    supporting_data := ["General symptom assessment"]
    icd_category := "Symptoms and Signs"
    clinical_reasoning := "Common presenting symptom requiring evaluation" }

def dyspneaEntry : FallbackDiagnosis :=
  { rank := 3, icd_code := "R06.02"
    disease_name := "Shortness of breath"
    common_name := "Difficulty breathing"
    confidence_percentage := 45
    evidence_score := "LOW"
    supporting_data := ["Respiratory symptom evaluation"]
    icd_category := "Respiratory"
    clinical_reasoning := "Common respiratory complaint" }

def painEntry : FallbackDiagnosis :=
  { rank := 2, icd_code := "R52"
    disease_name := "Pain, unspecified"
    common_name := "General pain"
    confidence_percentage := 60
    evidence_score := "MEDIUM"
    supporting_data := ["Patient reports pain symptoms"]
    icd_category := "Symptoms and Signs"
    clinical_reasoning := "Patient-reported pain requiring evaluation" }

/-- Result of the fallback generator: the (≤10) ranked diagnoses and the
primary entry; the fixed `system_analysis` / `icd_coding_notes` narrative
blocks carry no claim-relevant data and are left out. -/
structure FallbackResult where
  icd_diagnoses : List FallbackDiagnosis
  primary_icd_code : String
  primary_disease_name : String
deriving DecidableEq

/-- `generate_fallback_icd_diagnosis`, as a function of the only inputs it
uses: the `complaints['raw_text']` string (absent key ↦ `none`; the empty
string is falsy).  The registration/vitals look-ups in the source bind
variables that the output never reads. -/
def generate_fallback_icd_diagnosis (raw_text : Option String) :
    FallbackResult :=
  let fallback_diagnoses := [checkupEntry, feverEntry, dyspneaEntry]
  let fallback_diagnoses :=
    match raw_text with
    | some s =>
        if ¬ s = "" ∧ subStrAt "pain".data (s.data.map Char.toLower) then
          -- Python `list.insert(1, ...)`
          fallback_diagnoses.take 1 ++ [painEntry] ++ fallback_diagnoses.drop 1
        else fallback_diagnoses
    | Option.none => fallback_diagnoses
  { icd_diagnoses := fallback_diagnoses.take 10
    primary_icd_code := (fallback_diagnoses.headD checkupEntry).icd_code
    primary_disease_name := (fallback_diagnoses.headD checkupEntry).disease_name }

/-! ### Prompt files: loader (`prompt_loader.py`) and administration portal
(`admin_portal.py`)

The prompts directory and the backups directory are each a map from file
name to file content.  A timestamp string (`datetime.now().strftime(...)`)
is threaded through as a parameter. -/

structure PromptFS where
  prompts : List (String × String) := []
  backups : List (String × String) := []

/-- `save_prompt_file` / `write_prompt_file`: overwrite `<filename>` in the
prompts directory. -/
def save_prompt_file (fs : PromptFS) (filename content : String) : PromptFS :=
  { fs with prompts := dictSet fs.prompts filename content }

/-- `load_prompt` (prompt_loader.py): read `<name>.txt` and return its
trimmed text; `none` models the `FileNotFoundError` raised when absent. -/
def load_prompt (fs : PromptFS) (prompt_name : String) : Option String :=
  (alookup (prompt_name ++ ".txt") fs.prompts).map pyStrip

/-- `backup_prompt_file`: copy the current content, when the file exists, to
`<filename>_<timestamp>.bak` in the backups directory; return the backup
name. -/
def backup_prompt_file (fs : PromptFS) (filename stamp : String) :
    Option String × PromptFS :=
  match alookup filename fs.prompts with
  | some content =>
      let backup_filename := filename ++ "_" ++ stamp ++ ".bak"
      (some backup_filename,
       { fs with backups := dictSet fs.backups backup_filename content })
  | Option.none => (Option.none, fs)

/-- `/save/<filename>` (`save_prompt`): reject non-`.txt` names, else
overwrite; the `Bool` is the JSON success flag. -/
def save_prompt_route (fs : PromptFS) (filename content : String) :
    Bool × PromptFS :=
  if ¬ pyEndsWith filename ".txt" then (false, fs)
  else (true, save_prompt_file fs filename content)

/-- POST `/edit/<filename>` (`edit_prompt` submit path): reject non-`.txt`
names, else back the file up and then overwrite it. -/
def edit_prompt_post (fs : PromptFS) (filename new_content stamp : String) :
    PromptFS :=
  if ¬ pyEndsWith filename ".txt" then fs
  else
    let fs := (backup_prompt_file fs filename stamp).2
    save_prompt_file fs filename new_content

/-! ## Helper lemmas -/

theorem alookup_mem {α : Type} {k : String} {v : α} :
    ∀ {l : List (String × α)}, alookup k l = some v → (k, v) ∈ l := by
  intro l
  induction l with
  | nil => intro h; cases h
  | cons kv rest ih =>
      obtain ⟨k', v'⟩ := kv
      intro h
      by_cases hk : k' = k
      · rw [alookup, if_pos hk] at h
        injection h with h'
        subst hk
        subst h'
        exact List.mem_cons_self _ _
      · rw [alookup, if_neg hk] at h
        exact List.mem_cons_of_mem _ (ih h)

theorem headD_mem {α : Type} {l : List α} (h : ¬ l = []) (d : α) :
    l.headD d ∈ l := by
  cases l with
  | nil => exact absurd rfl h
  | cons a as => exact List.mem_cons_self a as

theorem getLastD_mem {α : Type} {l : List α} (h : ¬ l = []) (d : α) :
    l.getLastD d ∈ l := by
  cases l with
  | nil => exact absurd rfl h
  | cons a as =>
      have := List.getLastD_mem_cons as a
      rwa [← List.getLastD_cons a a as] at this

theorem prefAt_append (n post : List Char) : prefAt n (n ++ post) = true := by
  induction n with
  | nil => rfl
  | cons a as ih => simpa [prefAt] using ih

theorem subStrAt_of_containsSub {needle hay : List Char}
    (h : ContainsSub needle hay) : subStrAt needle hay = true := by
  obtain ⟨pre, post, rfl⟩ := h
  induction pre with
  | nil =>
      rw [List.nil_append]
      cases needle with
      | nil => cases post <;> simp [subStrAt, prefAt]
      | cons a as =>
          rw [List.cons_append]
          simpa [subStrAt] using Or.inl (prefAt_append (a :: as) post)
  | cons c pre ih =>
      rw [List.cons_append]
      simpa [subStrAt] using Or.inr ih

theorem containsSub_map {needle hay : List Char} (f : Char → Char)
    (h : ContainsSub needle hay) :
    ContainsSub (needle.map f) (hay.map f) := by
  obtain ⟨pre, post, rfl⟩ := h
  exact ⟨pre.map f, post.map f, by simp⟩

theorem pyEndsWith_append (s suf : String) : pyEndsWith (s ++ suf) suf = true := by
  rw [pyEndsWith, String.data_append, List.reverse_append]
  exact prefAt_append suf.data.reverse s.data.reverse

theorem alookup_mapReplace {α : Type} {l : List (String × α)} {k : String}
    (v : α) (h : l.any (fun kv => kv.1 = k) = true) :
    alookup k (l.map (fun kv => if kv.1 = k then (k, v) else kv)) = some v := by
  induction l with
  | nil => cases h
  | cons kv rest ih =>
      obtain ⟨k', v'⟩ := kv
      by_cases hk : k' = k
      · rw [List.map_cons]
        show alookup k ((if k' = k then (k, v) else (k', v')) :: _) = some v
        rw [if_pos hk, alookup, if_pos rfl]
      · simp only [List.any_cons, hk, decide_eq_true_eq, Bool.or_eq_true,
          false_or] at h
        rw [List.map_cons]
        show alookup k ((if k' = k then (k, v) else (k', v')) :: _) = some v
        rw [if_neg hk, alookup, if_neg hk]
        exact ih (by simpa using h)

theorem alookup_append_self {α : Type} {l : List (String × α)} {k : String}
    (v : α) (h : l.any (fun kv => kv.1 = k) = false) :
    alookup k (l ++ [(k, v)]) = some v := by
  induction l with
  | nil => simp [alookup]
  | cons kv rest ih =>
      obtain ⟨k', v'⟩ := kv
      simp only [List.any_cons, Bool.or_eq_false_iff, decide_eq_false_iff_not] at h
      rw [List.cons_append, alookup, if_neg h.1]
      exact ih (by simpa using h.2)

theorem alookup_dictSet_self {α : Type} (l : List (String × α)) (k : String)
    (v : α) : alookup k (dictSet l k v) = some v := by
  rw [dictSet]
  split
  case isTrue h => exact alookup_mapReplace v h
  case isFalse h =>
      exact alookup_append_self v (by rwa [Bool.not_eq_true] at h)

theorem dictSet_append_of_fresh {α : Type} {l : List (String × α)}
    {k : String} (v : α) (h : l.any (fun kv => kv.1 = k) = false) :
    dictSet l k v = l ++ [(k, v)] := by
  rw [dictSet, if_neg (by simp [h])]

/-! ## C2 — the per-field validity filter -/

/-- C2: during every step-based save a submitted value is persisted only if
it is not `None`, not an empty or whitespace-only string, not an empty
mapping and not an empty sequence; for exactly the seven text-input medical
fields the trimmed lower-cased none-like values (`none`, `no`, `normal`,
`n/a`, `na`, `not applicable`, `nil`, `nothing`) are additionally treated as
absence and dropped, whereas for `ecg_available` the value `no` is retained.
The code's `is_valid_value` agrees with this specification on every value
and every field name. -/
theorem is_valid_value_matches_spec (v : PyVal) (f : String) :
    is_valid_value v (some f) = specFieldValidity v f ∧
    is_valid_value (.str "no") (some "ecg_available") = true ∧
    is_valid_value (.str "no") (some "ecg_findings") = false ∧
    is_valid_value (.str "Normal ") (some "symptoms") = false ∧
    is_valid_value (.str "   ") (some "full_name") = false ∧
    is_valid_value (.dict []) (some "aadhaar_extraction") = false ∧
    is_valid_value .none (some "gender") = false := by
  refine ⟨?_, by decide, by decide, by decide, by decide, by decide, by decide⟩
  cases v with
  | str s =>
      simp only [is_valid_value, specFieldValidity, isTextMedicalField]
      by_cases h1 : pyLower (pyStrip s) = ""
      · simp [h1]
      · by_cases h2 : f ∈ text_input_medical_fields ∧
            pyLower (pyStrip s) ∈ none_like_values
        · simp [h1, h2]
        · by_cases h3 : f = "ecg_available" ∧ pyLower (pyStrip s) = "no" <;>
            simp [h1, h2, h3]
  | none => rfl
  | bool b => rfl
  | num n => rfl
  | dict d => rfl
  | list l => rfl

theorem alookup_eq_none {α : Type} {k : String} {l : List (String × α)}
    (h : ∀ kv ∈ l, ¬ kv.1 = k) : alookup k l = Option.none := by
  induction l with
  | nil => rfl
  | cons kv rest ih =>
      rw [alookup, if_neg (h kv (List.mem_cons_self _ _))]
      exact ih fun x hx => h x (List.mem_cons_of_mem _ hx)

theorem getStep_setStep_self (pd : PatientData) (n : Nat) (r : StepRecord)
    (h1 : 1 ≤ n) (h2 : n ≤ 7) : (pd.setStep n r).getStep n = some r := by
  interval_cases n <;> rfl

theorem getStep_status_update (pd : PatientData) (s : List (Nat × StepStatus))
    (c : Nat) (n : Nat) :
    PatientData.getStep
      { pd with step_completion_status := s, step_completed := c } n =
      pd.getStep n := by
  match n with
  | 0 => rfl
  | 1 => rfl
  | 2 => rfl
  | 3 => rfl
  | 4 => rfl
  | 5 => rfl
  | 6 => rfl
  | 7 => rfl
  | (m + 8) => rfl

/-! ## C1 — saving a step is a full replacement, never a merge -/

/-- C1: for every wizard step N (1–7) a step-based save completely replaces
the persisted stepN sub-record with the newly supplied cleaned payloads: the
resulting sub-record is exactly the cleaned new form/AI/file data (whatever
the prior record held), and any key all of whose submitted values are
invalid (omitted keys trivially included) is absent from the persisted
form data. -/
theorem step_save_full_replacement (n : Nat) (h1 : 1 ≤ n) (h2 : n ≤ 7)
    (form ai files : List (String × PyVal)) (now : Nat) (pd : PatientData)
    (k : String)
    (hk : form.all
      (fun kv => ¬ kv.1 = k ∨ ¬ is_valid_value kv.2 (some kv.1) = true) = true) :
    (save_step_based_patient_data n form ai files now pd).getStep n =
      some { step_name := stepName n
             form_data := cleanFilter form
             ai_generated_data := cleanFilter ai
             files_uploaded := filterValidFiles files
             timestamp := now
             data_source := stepDataSource n
             step_completed := true } ∧
    alookup k (cleanFilter form) = Option.none := by
  constructor
  · rw [save_step_based_patient_data]
    simp only [if_pos (And.intro h1 h2)]
    rw [getStep_status_update]
    exact getStep_setStep_self pd n _ h1 h2
  · have hk' := List.all_eq_true.mp hk
    refine alookup_eq_none fun kv hkv => ?_
    obtain ⟨kv0, hkv0, rfl⟩ := List.mem_map.mp hkv
    obtain ⟨hmem, hvalid⟩ := List.mem_filter.mp hkv0
    rcases (by simpa using hk' kv0 hmem) with h | h
    · exact h
    · have hv : is_valid_value kv0.2 (some kv0.1) = true := by simpa using hvalid
      rw [h] at hv
      cases hv

/-- C1 witness: a concrete save of step 3 where the previously present field
`symptoms` is resubmitted with the none-like value `"none"`: the persisted
sub-record is exactly the cleaned payload and `symptoms` is gone. -/
theorem step_save_full_replacement_witness :
    (save_step_based_patient_data 3
        [("symptoms", .str "none"), ("pulse_rate", .str "88")] [] [] 5
        { step3 := some { step_name := "Vital Signs & Medical Photos"
                          form_data := [("symptoms", .str "cough")]
                          ai_generated_data := []
                          files_uploaded := []
                          timestamp := 1
                          data_source := "user_input_and_analysis"
                          step_completed := true }
          step_completed := 3 }).getStep 3 =
      some { step_name := stepName 3
             form_data := cleanFilter
               [("symptoms", .str "none"), ("pulse_rate", .str "88")]
             ai_generated_data := cleanFilter []
             files_uploaded := filterValidFiles []
             timestamp := 5
             data_source := stepDataSource 3
             step_completed := true } ∧
    alookup "symptoms"
      (cleanFilter [("symptoms", .str "none"), ("pulse_rate", .str "88")]) =
      Option.none :=
  step_save_full_replacement 3 (by decide) (by decide)
    [("symptoms", .str "none"), ("pulse_rate", .str "88")] [] [] 5
    { step3 := some { step_name := "Vital Signs & Medical Photos"
                      form_data := [("symptoms", .str "cough")]
                      ai_generated_data := []
                      files_uploaded := []
                      timestamp := 1
                      data_source := "user_input_and_analysis"
                      step_completed := true }
      step_completed := 3 }
    "symptoms" (by decide)

/-! ## C3 — what the invalidation cascade actually touches -/

/-- A populated step sub-record for building concrete states. -/
def sampleRec (n : Nat) : StepRecord :=
  { step_name := stepName n
    form_data := [("field", .str "value")]
    ai_generated_data := []
    files_uploaded := []
    timestamp := 0
    data_source := stepDataSource n
    step_completed := true }

/-- A session that has completed steps 1–5. -/
def pd15 : PatientData :=
  { step1 := some (sampleRec 1), step2 := some (sampleRec 2)
    step3 := some (sampleRec 3), step4 := some (sampleRec 4)
    step5 := some (sampleRec 5)
    step_completed := 5 }

def st15 : SysState :=
  { file := some pd15
    sess := { complaints := [("raw_text", .str "cough")]
              step_completed := 5 } }

/-- C3 counterexample: with steps 1–5 completed, re-saving step 2 leaves the
persisted record's step 3 sub-record in place and its `step_completed` at 5
(not 2) — the cascade does not clear the persisted step sub-records. -/
theorem resave_step2_keeps_persisted_steps :
    (step_save_route 2 [("full_name", .str "Asha")] [] [] 9 st15).toOption.bind
        (fun st => st.file.map
          (fun pd => ((pd.getStep 3).isSome, (pd.getStep 6).isNone,
                      pd.step_completed))) =
      some (true, true, 5) := by decide

/-- C3 corrected: re-saving an already-saved step 2 runs the invalidation
cascade only on the legacy-shaped cookie-session copy — clearing its
`vitals`, `follow_up_questions`, `complaints`, `complaint_analysis` and
`diagnosis` sub-dictionaries (the steps-3–6 legacy keys) and resetting the
session copy's `step_completed` to 2 — while the persisted record keeps
every downstream step sub-record and its `step_completed` becomes
`max(previous, 2)`. -/
theorem resave_step2_cascade_session_only
    (form ai files : List (String × PyVal)) (now : Nat) (st : SysState)
    (pd : PatientData) (hf : st.file = some pd)
    (hgate : 1 ≤ pd.step_completed) (hmod : (pd.getStep 2).isSome = true) :
    step_save_route 2 form ai files now st =
      .ok { file := some (save_step_based_patient_data 2 form ai files now pd)
            sess := { st.sess with
                      vitals := []
                      follow_up_questions := []
                      complaints := []
                      complaint_analysis := []
                      diagnosis := []
                      step_completed := 2 } } ∧
    (save_step_based_patient_data 2 form ai files now pd).getStep 3 =
      pd.getStep 3 ∧
    (save_step_based_patient_data 2 form ai files now pd).getStep 4 =
      pd.getStep 4 ∧
    (save_step_based_patient_data 2 form ai files now pd).getStep 5 =
      pd.getStep 5 ∧
    (save_step_based_patient_data 2 form ai files now pd).getStep 6 =
      pd.getStep 6 ∧
    (save_step_based_patient_data 2 form ai files now pd).getStep 7 =
      pd.getStep 7 ∧
    (save_step_based_patient_data 2 form ai files now pd).step_completed =
      max pd.step_completed 2 := by
  refine ⟨?_, rfl, rfl, rfl, rfl, rfl, rfl⟩
  rw [step_save_route]
  rw [if_neg (by simp [hf, validate_session_step, hgate])]
  simp only [hf, Option.getD_some]
  rw [if_pos (show (2:Nat) ≤ 2 ∧ 2 ≤ 5 ∧ (pd.getStep 2).isSome = true from
        ⟨by norm_num, by norm_num, hmod⟩)]
  rw [if_pos (by norm_num)]
  rw [invalidate_downstream_steps, if_neg (by norm_num), if_pos (by norm_num)]

/-- C3 witness: the corrected statement at the concrete 1–5-completed
state. -/
theorem resave_step2_cascade_session_only_witness :
    step_save_route 2 [("full_name", .str "Asha")] [] [] 9 st15 =
      .ok { file := some (save_step_based_patient_data 2
              [("full_name", .str "Asha")] [] [] 9 pd15)
            sess := { st15.sess with
                      vitals := []
                      follow_up_questions := []
                      complaints := []
                      complaint_analysis := []
                      diagnosis := []
                      step_completed := 2 } } ∧
    (save_step_based_patient_data 2 [("full_name", .str "Asha")] [] [] 9
        pd15).getStep 3 = pd15.getStep 3 ∧
    (save_step_based_patient_data 2 [("full_name", .str "Asha")] [] [] 9
        pd15).getStep 4 = pd15.getStep 4 ∧
    (save_step_based_patient_data 2 [("full_name", .str "Asha")] [] [] 9
        pd15).getStep 5 = pd15.getStep 5 ∧
    (save_step_based_patient_data 2 [("full_name", .str "Asha")] [] [] 9
        pd15).getStep 6 = pd15.getStep 6 ∧
    (save_step_based_patient_data 2 [("full_name", .str "Asha")] [] [] 9
        pd15).getStep 7 = pd15.getStep 7 ∧
    (save_step_based_patient_data 2 [("full_name", .str "Asha")] [] [] 9
        pd15).step_completed = max pd15.step_completed 2 :=
  resave_step2_cascade_session_only [("full_name", .str "Asha")] [] [] 9 st15
    pd15 rfl (by decide) (by decide)

/-! ## C4 — the step gate and what it actually guards -/

theorem setStep_step_completed (pd : PatientData) (n : Nat) (r : StepRecord) :
    (pd.setStep n r).step_completed = pd.step_completed := by
  match n with
  | 0 => rfl
  | 1 => rfl
  | 2 => rfl
  | 3 => rfl
  | 4 => rfl
  | 5 => rfl
  | 6 => rfl
  | 7 => rfl
  | (m + 8) => rfl

theorem save_step_completed (n : Nat) (form ai files : List (String × PyVal))
    (now : Nat) (pd : PatientData) :
    (save_step_based_patient_data n form ai files now pd).step_completed =
      max pd.step_completed n := by
  simp only [save_step_based_patient_data]
  split
  · rw [setStep_step_completed]
  · rfl

theorem getStep3_save_ne (n : Nat) (hn : ¬ n = 3)
    (form ai files : List (String × PyVal)) (now : Nat) (pd : PatientData) :
    (save_step_based_patient_data n form ai files now pd).getStep 3 =
      pd.getStep 3 := by
  simp only [save_step_based_patient_data]
  split
  · rw [getStep_status_update]
    match n, hn with
    | 0, _ => rfl
    | 1, _ => rfl
    | 2, _ => rfl
    | 3, hn => exact absurd rfl hn
    | 4, _ => rfl
    | 5, _ => rfl
    | 6, _ => rfl
    | 7, _ => rfl
    | (m + 8), _ => rfl
  · rw [getStep_status_update]

theorem getStep3_save_eq (form ai files : List (String × PyVal)) (now : Nat)
    (pd : PatientData) :
    ((save_step_based_patient_data 3 form ai files now pd).getStep 3).isSome =
      true := rfl

theorem validate_some {req : Nat} {f : Option PatientData}
    (h : validate_session_step req f = true) :
    ∃ pd, f = some pd ∧ req ≤ pd.step_completed := by
  cases f with
  | none => cases h
  | some pd =>
      exact ⟨pd, rfl, by simpa [validate_session_step] using h⟩

theorem step_save_route_ok_file {n : Nat}
    {form ai files : List (String × PyVal)} {now : Nat} {st st' : SysState}
    (hok : step_save_route n form ai files now st = .ok st') :
    st'.file = some (save_step_based_patient_data n form ai files now
      (st.file.getD emptyPatientData)) ∧
    (n = 1 ∨ validate_session_step (n - 1) st.file = true) := by
  rw [step_save_route] at hok
  split at hok
  · cases hok
  case isFalse hcond =>
      injection hok with h'
      subst h'
      refine ⟨?_, ?_⟩
      · split <;> split <;> rfl
      · by_cases h1 : n = 1
        · exact Or.inl h1
        · rcases not_and_or.mp hcond with h | h
          · exact absurd h1 h
          · exact Or.inr (by simpa using not_not.mp h)

/-- Along the gated wizard endpoints, a persisted `step_completed` of at
least 3 can only have been reached by actually saving step 3. -/
theorem reachable_gated_step3 {st : SysState} (h : ReachableGated st) :
    ∀ pd, st.file = some pd → 3 ≤ pd.step_completed →
      (pd.getStep 3).isSome = true := by
  induction h with
  | init => intro pd hpd _; cases hpd
  | clear hprev ih => intro pd hpd _; cases hpd
  | @save st st' n form ai files now hprev hok ih =>
      intro pd hpd h3
      obtain ⟨hfile, hgate⟩ := step_save_route_ok_file hok
      rw [hpd] at hfile
      injection hfile with hpd'
      subst hpd'
      rw [save_step_completed] at h3
      by_cases hn3 : n = 3
      · subst hn3
        exact getStep3_save_eq form ai files now _
      · rw [getStep3_save_ne n hn3]
        rcases le_max_iff.mp h3 with hsc | hn
        · cases hstf : st.file with
          | none =>
              rw [hstf, Option.getD_none] at hsc
              simp [emptyPatientData] at hsc
          | some pd1 =>
              have hmem := ih pd1 hstf
                (by rwa [hstf, Option.getD_some] at hsc)
              rwa [Option.getD_some]
        · rcases hgate with h1 | hval
          · omega
          · obtain ⟨pd1, hstf, hle⟩ := validate_some hval
            have h3' : 3 ≤ pd1.step_completed := by omega
            have hmem := ih pd1 hstf h3'
            rwa [hstf, Option.getD_some]

/-- A fresh session on which only `complete_assessment` (step = 5) has been
invoked: an ungated step-based save with a client-supplied step number. -/
def stComplete5 : SysState :=
  complete_assessment_route 5 "2025-01-01T00:00:00" 0 {}

/-- C4 counterexample: the ungated `complete_assessment` endpoint saves
step 5 on a fresh session, pushing the persisted `step_completed` to 5
although step 3 was never saved; the step-4 save endpoint then passes its
gate, succeeds, and creates a step 4 sub-record — contradicting the claim
that it returns a failure and writes nothing whenever step 3 was never
saved. -/
theorem step4_save_without_step3_succeeds :
    ((stComplete5.file.getD emptyPatientData).getStep 3).isSome = false ∧
    (step_save_route 4 [("followup_notes", .str "dizzy")] [] [] 1
        stComplete5).toOption.bind
        (fun st => st.file.map (fun pd =>
          ((pd.getStep 4).isSome, (pd.getStep 3).isSome))) =
      some (true, false) := by decide

/-- C4 corrected: the step gate compares the persisted record's
`step_completed` counter with the required minimum (and fails when no record
exists), and the gated step save endpoints call it before writing anything;
but `complete_assessment` performs an ungated step-based save of a
client-chosen step, so the guarantee is restricted to sessions driven
through the gated endpoints: for every state reachable through them in
which step 3 was never saved, the step-4 save endpoint fails with
"Please complete vitals first" and writes nothing. -/
theorem step4_gate_blocks_without_step3 (st : SysState)
    (hreach : ReachableGated st)
    (hnos3 : ∀ pd, st.file = some pd → (pd.getStep 3).isSome = false)
    (form ai files : List (String × PyVal)) (now : Nat) (req : Nat)
    (pd : PatientData) :
    step_save_route 4 form ai files now st =
      .error "Please complete vitals first" ∧
    validate_session_step req (some pd) = decide (req ≤ pd.step_completed) ∧
    validate_session_step req Option.none = false := by
  refine ⟨?_, rfl, rfl⟩
  rw [step_save_route, if_pos ?_]
  · rfl
  · refine ⟨by norm_num, fun hval => ?_⟩
    obtain ⟨pd1, hpd1, hle⟩ := validate_some hval
    have hinv := reachable_gated_step3 hreach pd1 hpd1 hle
    rw [hnos3 pd1 hpd1] at hinv
    cases hinv

/-- The record after saving step 1 with the case-category form on a fresh
session. -/
def pd1gated : PatientData :=
  { step1 := some { step_name := "Case Category Selection"
                    form_data := [("case_category", .str "illness")]
                    ai_generated_data := []
                    files_uploaded := []
                    timestamp := 0
                    data_source := "user_input"
                    step_completed := true }
    step_completion_status := [(1, ⟨true, 0, 1, 0, 0⟩)]
    step_completed := 1 }

def st1gated : SysState :=
  { file := some pd1gated, sess := { step_completed := 1 } }

/-- The record after then saving step 2 through its gated endpoint. -/
def pd2gated : PatientData :=
  { pd1gated with
    step2 := some { step_name := "Patient Registration"
                    form_data := [("full_name", .str "Asha")]
                    ai_generated_data := []
                    files_uploaded := []
                    timestamp := 1
                    data_source := "user_input_and_extraction"
                    step_completed := true }
    step_completion_status := [(1, ⟨true, 0, 1, 0, 0⟩), (2, ⟨true, 1, 1, 0, 0⟩)]
    step_completed := 2 }

def st2gated : SysState :=
  { file := some pd2gated, sess := { step_completed := 2 } }

theorem st1gated_reachable : ReachableGated st1gated :=
  ReachableGated.save ReachableGated.init
    (rfl : step_save_route 1 [("case_category", .str "illness")] [] [] 0 {} =
      .ok st1gated)

theorem st2gated_reachable : ReachableGated st2gated :=
  ReachableGated.save st1gated_reachable
    (rfl : step_save_route 2 [("full_name", .str "Asha")] [] [] 1 st1gated =
      .ok st2gated)

/-- C4 witness: after gated saves of steps 1 and 2, step 3 was never saved
and the step-4 save endpoint is refused. -/
theorem step4_gate_blocks_without_step3_witness :
    step_save_route 4 [("followup_notes", .str "dizzy")] [] [] 2 st2gated =
      .error "Please complete vitals first" ∧
    validate_session_step 3 (some pd2gated) =
      decide (3 ≤ pd2gated.step_completed) ∧
    validate_session_step 3 Option.none = false :=
  step4_gate_blocks_without_step3 st2gated st2gated_reachable
    (fun pd hpd => by injection hpd with h; rw [← h]; rfl)
    [("followup_notes", .str "dizzy")] [] [] 2 3 pd2gated


/-! ## C10 — the persisted step counter never decreases -/

/-- C10: after every successful step-based save of step N the persisted
record's `step_completed` equals `max(previous, N)`, so no step-based save
ever decreases the file-level counter; and a successful gated save writes
exactly the step-based-save output to the file — the invalidation cascade's
reset only ever touches the session copy, never the file the gate reads. -/
theorem step_completed_never_decreases (n : Nat)
    (form ai files : List (String × PyVal)) (now : Nat) (pd : PatientData)
    (st st' : SysState)
    (hok : step_save_route n form ai files now st = .ok st') :
    (save_step_based_patient_data n form ai files now pd).step_completed =
      max pd.step_completed n ∧
    pd.step_completed ≤
      (save_step_based_patient_data n form ai files now pd).step_completed ∧
    st'.file = some (save_step_based_patient_data n form ai files now
      (st.file.getD emptyPatientData)) ∧
    (st.file.getD emptyPatientData).step_completed ≤
      (save_step_based_patient_data n form ai files now
        (st.file.getD emptyPatientData)).step_completed := by
  have h1 := save_step_completed n form ai files now pd
  have h2 := save_step_completed n form ai files now
    (st.file.getD emptyPatientData)
  refine ⟨h1, ?_, (step_save_route_ok_file hok).1, ?_⟩
  · rw [h1]; exact le_max_left _ _
  · rw [h2]; exact le_max_left _ _

/-- C10 witness: the gated save of step 2 on the step-1-completed state, and
the counter arithmetic on the steps-1–5-completed record (re-saving the
earlier step keeps the counter at 5). -/
theorem step_completed_never_decreases_witness :
    (save_step_based_patient_data 2 [("full_name", .str "Asha")] [] [] 1
        pd15).step_completed = max pd15.step_completed 2 ∧
    pd15.step_completed ≤
      (save_step_based_patient_data 2 [("full_name", .str "Asha")] [] [] 1
        pd15).step_completed ∧
    st2gated.file = some (save_step_based_patient_data 2
      [("full_name", .str "Asha")] [] [] 1
      (st1gated.file.getD emptyPatientData)) ∧
    (st1gated.file.getD emptyPatientData).step_completed ≤
      (save_step_based_patient_data 2 [("full_name", .str "Asha")] [] [] 1
        (st1gated.file.getD emptyPatientData)).step_completed :=
  step_completed_never_decreases 2 [("full_name", .str "Asha")] [] [] 1 pd15
    st1gated st2gated rfl

/-! ## C5 — the abnormal-vitals detector -/

theorem classifyVital_of_inNormalBand {f : Bool} {name : String} {q : ℚ}
    (h : inNormalBand f name q = true) :
    classifyVital f name q = Option.none := by
  unfold inNormalBand at h
  unfold classifyVital
  cases hr : normalRange f name with
  | none => rfl
  | some t =>
      obtain ⟨mn, mx, u, pn⟩ := t
      rw [hr] at h
      simp only [decide_eq_true_eq] at h
      exact if_neg (not_or.mpr ⟨not_lt.mpr h.1, not_lt.mpr h.2⟩)

def vTemp103 : VitalsInput :=
  { numeric := [("temperature", 103)], temperature_unit := some "fahrenheit" }

def vPulse110 : VitalsInput := { numeric := [("pulse_rate", 110)] }

def vOx80 : VitalsInput := { numeric := [("oxygen_saturation", 80)] }

/-- An all-normal submission: every recorded vital inside its band, ECG not
available, no congestion/fluid findings. -/
def vAllNormal : VitalsInput :=
  { numeric := [("temperature", mkRat 982 10), ("pulse_rate", 72),
                ("oxygen_saturation", 97)]
    temperature_unit := some "fahrenheit"
    ecg_available := some "no"
    lung_congestion := some "none"
    water_in_lungs := some "No" }

/-- C5: the detector classifies each recorded vital against the fixed
normal-range table, unit-aware for temperature: 103 °F is critical-high,
110 bpm is abnormal-high but not critical, 80 % oxygen saturation is
critical-low; and whenever every recorded vital lies inside its normal band
and no qualitative ECG/lung finding exists, the route replies with an empty
question list and the normal message, skipping the LLM entirely. -/
theorem abnormal_vitals_detector (v : VitalsInput)
    (hnorm : ∀ pq ∈ v.numeric, inNormalBand v.fahrenheit pq.1 pq.2 = true)
    (hecg : v.ecg_available.getD "" = "yes" →
      pyStrip (v.ecg_findings.getD "") = "" ∨
      pyLower (pyStrip (v.ecg_findings.getD "")) ∈
        ["normal", "none", "n/a", "na"])
    (hlung : pyStrip (v.lung_congestion.getD "") = "" ∨
      pyLower (pyStrip (v.lung_congestion.getD "")) ∈ ["no", "none", "normal"])
    (hwater : pyStrip (v.water_in_lungs.getD "") = "" ∨
      pyLower (pyStrip (v.water_in_lungs.getD "")) ∈ ["no", "none", "normal"]) :
    ((vitalFindings vTemp103).map
      fun f => (f.parameter, f.severity, f.deviation)) =
        [("temperature", "critical", "high")] ∧
    ((vitalFindings vPulse110).map
      fun f => (f.parameter, f.severity, f.deviation)) =
        [("pulse_rate", "abnormal", "high")] ∧
    ((vitalFindings vOx80).map
      fun f => (f.parameter, f.severity, f.deviation)) =
        [("oxygen_saturation", "critical", "low")] ∧
    generate_followup_questions_core v =
      .normalReply []
        "All vital signs appear within normal ranges. No follow-up questions needed." := by
  refine ⟨by decide, by decide, by decide, ?_⟩
  have hvf : vitalFindings v = [] := by
    rw [vitalFindings, List.filterMap_eq_nil_iff]
    intro name _
    cases ha : alookup name v.numeric with
    | none => rfl
    | some q =>
        exact classifyVital_of_inNormalBand (hnorm (name, q) (alookup_mem ha))
  have hc1 : ¬ (v.ecg_available.getD "" = "yes" ∧
      ¬ pyStrip (v.ecg_findings.getD "") = "" ∧
      pyLower (pyStrip (v.ecg_findings.getD "")) ∉
        ["normal", "none", "n/a", "na"]) := by
    rintro ⟨h1, h2, h3⟩
    rcases hecg h1 with h | h
    exacts [h2 h, h3 h]
  have hc2 : ¬ (¬ pyStrip (v.lung_congestion.getD "") = "" ∧
      pyLower (pyStrip (v.lung_congestion.getD "")) ∉
        ["no", "none", "normal"]) := by
    rintro ⟨h2, h3⟩
    rcases hlung with h | h
    exacts [h2 h, h3 h]
  have hc3 : ¬ (¬ pyStrip (v.water_in_lungs.getD "") = "" ∧
      pyLower (pyStrip (v.water_in_lungs.getD "")) ∉
        ["no", "none", "normal"]) := by
    rintro ⟨h2, h3⟩
    rcases hwater with h | h
    exacts [h2 h, h3 h]
  have hcf : concerningFindings v = [] := by
    simp only [concerningFindings]
    rw [if_neg hc1, if_neg hc2, if_neg hc3]
    rfl
  rw [generate_followup_questions_core, criticalFindings, abnormalFindings,
    hvf, hcf]
  rfl

/-- C5 witness: the all-normal submission produces the no-question, no-LLM
reply. -/
theorem abnormal_vitals_detector_witness :
    ((vitalFindings vTemp103).map
      fun f => (f.parameter, f.severity, f.deviation)) =
        [("temperature", "critical", "high")] ∧
    ((vitalFindings vPulse110).map
      fun f => (f.parameter, f.severity, f.deviation)) =
        [("pulse_rate", "abnormal", "high")] ∧
    ((vitalFindings vOx80).map
      fun f => (f.parameter, f.severity, f.deviation)) =
        [("oxygen_saturation", "critical", "low")] ∧
    generate_followup_questions_core vAllNormal =
      .normalReply []
        "All vital signs appear within normal ranges. No follow-up questions needed." :=
  abnormal_vitals_detector vAllNormal (by decide) (by decide) (by decide)
    (by decide)

/-! ## C6 and C7 — the differential-elimination round -/

theorem strip_fixed_of_mem {icd_codes : List ICDCode} {e : String}
    (hstrip : ∀ c ∈ icd_codes, pyStrip c.code = c.code)
    (he : e ∈ icd_codes.map (fun c => c.code)) : pyStrip e = e := by
  obtain ⟨c, hc, rfl⟩ := List.mem_map.mp he
  exact hstrip c hc

theorem validateElimination_success (result : AnswerParse) (target : String)
    (icd_codes : List ICDCode) :
    (validateElimination result target icd_codes).success = result.success := by
  rw [validateElimination]
  split
  · split <;> rfl
  · rfl

theorem validateElimination_mem (result : AnswerParse) (target : String)
    (icd_codes : List ICDCode) (hne : ¬ icd_codes = [])
    (hstrip : ∀ c ∈ icd_codes, pyStrip c.code = c.code) :
    pyStrip (validateElimination result target icd_codes).eliminated_code ∈
      icd_codes.map (fun c => c.code) := by
  have hmapne : ¬ icd_codes.map (fun c => c.code) = [] := by
    simpa using hne
  rw [validateElimination]
  split
  · split
    case isTrue ht =>
        rw [strip_fixed_of_mem hstrip ht.2]
        exact ht.2
    case isFalse ht =>
        have hlast := getLastD_mem hmapne ""
        rw [strip_fixed_of_mem hstrip hlast]
        exact hlast
  case isFalse hv =>
      rcases not_or.mp hv with ⟨_, h⟩
      exact not_not.mp h

theorem filter_code_ne_length {l : List ICDCode} {e : String}
    (hnd : (l.map (fun c => c.code)).Nodup)
    (he : e ∈ l.map (fun c => c.code)) :
    (l.filter (fun c => ¬ c.code = e)).length = l.length - 1 := by
  induction l with
  | nil => cases he
  | cons a as ih =>
      rw [List.map_cons] at hnd he
      obtain ⟨hna, hnd'⟩ := List.nodup_cons.mp hnd
      by_cases hae : a.code = e
      · rw [List.filter_cons_of_neg (by simpa using hae)]
        rw [List.filter_eq_self.mpr ?_]
        · simp
        · intro c hc
          simp only [decide_eq_true_eq]
          intro hce
          have hcm : c.code ∈ as.map (fun c => c.code) :=
            List.mem_map_of_mem (fun c => c.code) hc
          rw [hce, ← hae] at hcm
          exact hna hcm
      · rw [List.filter_cons_of_pos (by simpa using hae)]
        rcases List.mem_cons.mp he with h | h
        · exact absurd h.symm hae
        · have hlen := ih hnd' h
          have hpos : 0 < as.length := by
            rcases as with _ | _
            · cases h
            · simp
          simp only [List.length_cons, hlen]
          omega

/-- One full answer-processing round: with more than 2 candidates, pairwise
distinct codes, strip-fixed code strings and a successful parse, the route
returns an updated list exactly one shorter. -/
theorem elimination_round_shrinks (icd_codes : List ICDCode) (target : String)
    (aparse : AnswerParse) (hlen : 2 < icd_codes.length)
    (hnd : (icd_codes.map (fun c => c.code)).Nodup)
    (hstrip : ∀ c ∈ icd_codes, pyStrip c.code = c.code)
    (hsucc : aparse.success = true) :
    (process_differential_answer icd_codes target (some aparse)).toOption.map
      (fun p => p.2.length) = some (icd_codes.length - 1) := by
  have hne : ¬ icd_codes = [] := by
    rintro rfl
    simp at hlen
  have hmem := validateElimination_mem aparse target icd_codes hne hstrip
  rw [process_differential_answer, if_neg (by omega)]
  show ((if ¬ (validateElimination aparse target icd_codes).success then _
         else _ : Except String (String × List ICDCode)).toOption.map _) = _
  rw [if_neg (not_not_intro (by rw [validateElimination_success]; exact hsucc))]
  rw [if_neg (not_not_intro hmem)]
  rw [if_neg (not_not_intro (filter_code_ne_length hnd hmem))]
  rw [Except.toOption, Option.map_some']
  rw [filter_code_ne_length hnd hmem]

/-- C6 (corrected): the nominated target and the eliminated code are always
members of the current candidate list, and an invalid LLM choice is repaired
deterministically — during question generation by substituting the *first*
code of the list (not the last), during answer processing by the nominated
target if still present and otherwise by the last code — with synthetic
fallback reasoning strings; the round then removes exactly one code, so the
protocol never stalls on an invalid LLM choice. -/
theorem differential_fallbacks (icd_codes : List ICDCode) (target : String)
    (qparse : QuestionParse) (aparse : AnswerParse)
    (hlen : 2 < icd_codes.length)
    (hnd : (icd_codes.map (fun c => c.code)).Nodup)
    (hstrip : ∀ c ∈ icd_codes, pyStrip c.code = c.code)
    (hsucc : aparse.success = true) :
    pyStrip (validateTarget qparse icd_codes).target_code_to_eliminate ∈
      icd_codes.map (fun c => c.code) ∧
    (¬ pyStrip qparse.target_code_to_eliminate ∈
        icd_codes.map (fun c => c.code) →
      (validateTarget qparse icd_codes).target_code_to_eliminate =
        (icd_codes.map (fun c => c.code)).headD "" ∧
      (validateTarget qparse icd_codes).reasoning =
        "Fallback targeting due to invalid LLM response") ∧
    pyStrip (validateElimination aparse target icd_codes).eliminated_code ∈
      icd_codes.map (fun c => c.code) ∧
    (¬ pyStrip aparse.eliminated_code ∈ icd_codes.map (fun c => c.code) →
      ¬ target = "" → target ∈ icd_codes.map (fun c => c.code) →
      (validateElimination aparse target icd_codes).eliminated_code = target ∧
      (validateElimination aparse target icd_codes).reasoning =
        "Fallback elimination of target code due to invalid LLM response") ∧
    (¬ pyStrip aparse.eliminated_code ∈ icd_codes.map (fun c => c.code) →
      ¬ target ∈ icd_codes.map (fun c => c.code) →
      (validateElimination aparse target icd_codes).eliminated_code =
        (icd_codes.map (fun c => c.code)).getLastD "" ∧
      (validateElimination aparse target icd_codes).reasoning =
        "Emergency fallback elimination due to LLM error") ∧
    (process_differential_answer icd_codes target (some aparse)).toOption.map
      (fun p => p.2.length) = some (icd_codes.length - 1) := by
  have hne : ¬ icd_codes = [] := by
    rintro rfl
    simp at hlen
  have hmapne : ¬ icd_codes.map (fun c => c.code) = [] := by simpa using hne
  refine ⟨?_, ?_, validateElimination_mem aparse target icd_codes hne hstrip,
    ?_, ?_, elimination_round_shrinks icd_codes target aparse hlen hnd hstrip hsucc⟩
  · rw [validateTarget]
    split
    case isTrue h =>
        have hhead := headD_mem hmapne ""
        show pyStrip ((icd_codes.map (fun c => c.code)).headD "") ∈ _
        rw [strip_fixed_of_mem hstrip hhead]
        exact hhead
    case isFalse h =>
        rcases not_or.mp h with ⟨_, hmem⟩
        exact not_not.mp hmem
  · intro hnot
    rw [validateTarget, if_pos (Or.inr hnot)]
    exact ⟨rfl, rfl⟩
  · intro hnot hts htm
    rw [validateElimination, if_pos (Or.inr hnot), if_pos ⟨hts, htm⟩]
    exact ⟨rfl, rfl⟩
  · intro hnot htm
    rw [validateElimination, if_pos (Or.inr hnot),
      if_neg (fun hc => htm hc.2)]
    exact ⟨rfl, rfl⟩

def codes3 : List ICDCode :=
  [⟨"A00", "Cholera", 50⟩, ⟨"B20", "HIV disease", 30⟩,
   ⟨"J18.9", "Pneumonia, unspecified", 20⟩]

/-- C6 counterexample: during question generation, when the LLM names a
target outside the 3-code list, the fallback nominates the *first* code
("A00"), not the last ("J18.9") — there is no previously nominated target in
this path, so the claimed target-else-last rule picks the wrong code. -/
theorem question_fallback_targets_first_code :
    (validateTarget ⟨true, "q?", "ZZZ", "r", []⟩ codes3).target_code_to_eliminate
      = "A00" ∧
    ¬ (validateTarget ⟨true, "q?", "ZZZ", "r", []⟩
        codes3).target_code_to_eliminate = "J18.9" := by decide

/-- C6 witness: a 3-candidate round in which the LLM names an out-of-list
elimination code and an out-of-list target was nominated. -/
theorem differential_fallbacks_witness :
    pyStrip (validateTarget ⟨true, "q?", "ZZZ", "r", []⟩
        codes3).target_code_to_eliminate ∈ codes3.map (fun c => c.code) ∧
    (¬ pyStrip (QuestionParse.target_code_to_eliminate
          ⟨true, "q?", "ZZZ", "r", []⟩) ∈ codes3.map (fun c => c.code) →
      (validateTarget ⟨true, "q?", "ZZZ", "r", []⟩
          codes3).target_code_to_eliminate =
        (codes3.map (fun c => c.code)).headD "" ∧
      (validateTarget ⟨true, "q?", "ZZZ", "r", []⟩ codes3).reasoning =
        "Fallback targeting due to invalid LLM response") ∧
    pyStrip (validateElimination ⟨true, "QQQ", "why"⟩ "YYY"
        codes3).eliminated_code ∈ codes3.map (fun c => c.code) ∧
    (¬ pyStrip (AnswerParse.eliminated_code ⟨true, "QQQ", "why"⟩) ∈
        codes3.map (fun c => c.code) →
      ¬ ("YYY" : String) = "" → ("YYY" : String) ∈ codes3.map (fun c => c.code) →
      (validateElimination ⟨true, "QQQ", "why"⟩ "YYY"
          codes3).eliminated_code = "YYY" ∧
      (validateElimination ⟨true, "QQQ", "why"⟩ "YYY" codes3).reasoning =
        "Fallback elimination of target code due to invalid LLM response") ∧
    (¬ pyStrip (AnswerParse.eliminated_code ⟨true, "QQQ", "why"⟩) ∈
        codes3.map (fun c => c.code) →
      ¬ ("YYY" : String) ∈ codes3.map (fun c => c.code) →
      (validateElimination ⟨true, "QQQ", "why"⟩ "YYY"
          codes3).eliminated_code =
        (codes3.map (fun c => c.code)).getLastD "" ∧
      (validateElimination ⟨true, "QQQ", "why"⟩ "YYY" codes3).reasoning =
        "Emergency fallback elimination due to LLM error") ∧
    (process_differential_answer codes3 "YYY"
        (some ⟨true, "QQQ", "why"⟩)).toOption.map
      (fun p => p.2.length) = some (codes3.length - 1) :=
  differential_fallbacks codes3 "YYY" ⟨true, "q?", "ZZZ", "r", []⟩
    ⟨true, "QQQ", "why"⟩ (by decide) (by decide) (by decide) (by decide)

def codes2 : List ICDCode :=
  [⟨"A00", "Cholera", 55⟩, ⟨"B20", "HIV disease", 45⟩]

/-- C7: the elimination loop stops at a floor of exactly 2 candidates: a
round on exactly 3 distinct candidates returns a 2-element list, and both
the question-generation and the answer-processing endpoints reject any
further round on ≤ 2 candidates with their explicit already-at-target
errors, leaving the list untouched. -/
theorem elimination_floor_two (icd_codes low : List ICDCode) (target : String)
    (aparse : AnswerParse) (llmq : Option QuestionParse)
    (llma : Option AnswerParse) (hlen3 : icd_codes.length = 3)
    (hnd : (icd_codes.map (fun c => c.code)).Nodup)
    (hstrip : ∀ c ∈ icd_codes, pyStrip c.code = c.code)
    (hsucc : aparse.success = true) (hlow : low.length ≤ 2) :
    (process_differential_answer icd_codes target (some aparse)).toOption.map
      (fun p => p.2.length) = some 2 ∧
    generate_differential_question low llmq =
      .error "Cannot eliminate more codes. Already at target of 2 codes." ∧
    process_differential_answer low target llma =
      .error "Already at target of 2 or fewer codes. Cannot eliminate more." := by
  refine ⟨?_, ?_, ?_⟩
  · have := elimination_round_shrinks icd_codes target aparse
      (by omega) hnd hstrip hsucc
    rw [this, hlen3]
  · rw [generate_differential_question.eq_def, if_pos hlow]
  · rw [process_differential_answer, if_pos hlow]

/-- C7 witness: the floor at the concrete 3- and 2-candidate lists. -/
theorem elimination_floor_two_witness :
    (process_differential_answer codes3 "A00"
        (some ⟨true, "B20", "ruled out"⟩)).toOption.map
      (fun p => p.2.length) = some 2 ∧
    generate_differential_question codes2
        (some ⟨true, "q?", "A00", "r", []⟩) =
      .error "Cannot eliminate more codes. Already at target of 2 codes." ∧
    process_differential_answer codes2 "A00"
        (some ⟨true, "B20", "ruled out"⟩) =
      .error "Already at target of 2 or fewer codes. Cannot eliminate more." :=
  elimination_floor_two codes3 codes2 "A00" ⟨true, "B20", "ruled out"⟩
    (some ⟨true, "q?", "A00", "r", []⟩) (some ⟨true, "B20", "ruled out"⟩)
    (by decide) (by decide) (by decide) (by decide) (by decide)

/-! ## C8 — the hand-authored fallback diagnosis set -/

/-- C8: when ICD-candidate generation fails entirely, the substituted
fallback set always contains the three baseline entries (general checkup
`Z00.00`, unspecified fever `R50.9`, unspecified dyspnea `R06.02`), and when
the complaint text contains the substring `pain`, the pain entry `R52` is
inserted at rank 2 (list position 1). -/
theorem fallback_icd_contents (raw_text : Option String) (s : String)
    (hs : raw_text = some s) (hne : ¬ s = "")
    (hpain : ContainsSub "pain".data s.data) :
    "Z00.00" ∈ (generate_fallback_icd_diagnosis raw_text).icd_diagnoses.map
      (fun d => d.icd_code) ∧
    "R50.9" ∈ (generate_fallback_icd_diagnosis raw_text).icd_diagnoses.map
      (fun d => d.icd_code) ∧
    "R06.02" ∈ (generate_fallback_icd_diagnosis raw_text).icd_diagnoses.map
      (fun d => d.icd_code) ∧
    (generate_fallback_icd_diagnosis raw_text).icd_diagnoses.get? 1 =
      some painEntry ∧
    painEntry.icd_code = "R52" ∧
    painEntry.rank = 2 ∧
    (generate_fallback_icd_diagnosis Option.none).icd_diagnoses.map
      (fun d => d.icd_code) = ["Z00.00", "R50.9", "R06.02"] := by
  subst hs
  have hcond : subStrAt "pain".data (s.data.map Char.toLower) = true := by
    have hmap := containsSub_map Char.toLower hpain
    have hfix : ("pain".data.map Char.toLower) = "pain".data := by decide
    rw [hfix] at hmap
    exact subStrAt_of_containsSub hmap
  have hlist : (generate_fallback_icd_diagnosis (some s)).icd_diagnoses =
      [checkupEntry, painEntry, feverEntry, dyspneaEntry] := by
    simp only [generate_fallback_icd_diagnosis]
    rw [if_pos ⟨hne, hcond⟩]
    rfl
  rw [hlist]
  refine ⟨by decide, by decide, by decide, rfl, rfl, rfl, by decide⟩

/-- C8 witness: a complaint mentioning pain. -/
theorem fallback_icd_contents_witness :
    "Z00.00" ∈ (generate_fallback_icd_diagnosis
        (some "sharp chest pain since morning")).icd_diagnoses.map
      (fun d => d.icd_code) ∧
    "R50.9" ∈ (generate_fallback_icd_diagnosis
        (some "sharp chest pain since morning")).icd_diagnoses.map
      (fun d => d.icd_code) ∧
    "R06.02" ∈ (generate_fallback_icd_diagnosis
        (some "sharp chest pain since morning")).icd_diagnoses.map
      (fun d => d.icd_code) ∧
    (generate_fallback_icd_diagnosis
        (some "sharp chest pain since morning")).icd_diagnoses.get? 1 =
      some painEntry ∧
    painEntry.icd_code = "R52" ∧
    painEntry.rank = 2 ∧
    (generate_fallback_icd_diagnosis Option.none).icd_diagnoses.map
      (fun d => d.icd_code) = ["Z00.00", "R50.9", "R06.02"] :=
  fallback_icd_contents (some "sharp chest pain since morning")
    "sharp chest pain since morning" rfl (by decide)
    ⟨"sharp chest ".data, " since morning".data, by decide⟩

/-! ## C9 — prompt save/load round trip and pre-edit backup -/

/-- C9: writing text to a prompt file through the portal's save operation
and loading the same prompt name through the loader returns exactly the
trimmed text that was written; and the edit submit path first produces
exactly one new timestamped backup whose content equals the pre-edit
content. -/
theorem prompt_roundtrip_and_backup (fs : PromptFS)
    (name content stamp old : String)
    (hold : alookup (name ++ ".txt") fs.prompts = some old)
    (hfresh : fs.backups.any
      (fun kv => kv.1 = name ++ ".txt" ++ "_" ++ stamp ++ ".bak") = false) :
    load_prompt ((save_prompt_route fs (name ++ ".txt") content).2) name =
      some (pyStrip content) ∧
    (save_prompt_route fs (name ++ ".txt") content).1 = true ∧
    load_prompt (edit_prompt_post fs (name ++ ".txt") content stamp) name =
      some (pyStrip content) ∧
    (edit_prompt_post fs (name ++ ".txt") content stamp).backups =
      fs.backups ++ [(name ++ ".txt" ++ "_" ++ stamp ++ ".bak", old)] ∧
    (edit_prompt_post fs (name ++ ".txt") content stamp).backups.length =
      fs.backups.length + 1 ∧
    alookup (name ++ ".txt" ++ "_" ++ stamp ++ ".bak")
      (edit_prompt_post fs (name ++ ".txt") content stamp).backups =
      some old := by
  have hend := pyEndsWith_append name ".txt"
  have hb0 : backup_prompt_file fs (name ++ ".txt") stamp =
      (some (name ++ ".txt" ++ "_" ++ stamp ++ ".bak"),
       { fs with backups := dictSet fs.backups (name ++ ".txt" ++ "_" ++ stamp ++ ".bak") old }) := by
    rw [backup_prompt_file, hold]
  have hb : backup_prompt_file fs (name ++ ".txt") stamp =
      (some (name ++ ".txt" ++ "_" ++ stamp ++ ".bak"),
       { fs with backups := fs.backups ++
           [(name ++ ".txt" ++ "_" ++ stamp ++ ".bak", old)] }) := by
    rw [hb0, dictSet_append_of_fresh old hfresh]
  have hedit : edit_prompt_post fs (name ++ ".txt") content stamp =
      { prompts := dictSet fs.prompts (name ++ ".txt") content
        backups := fs.backups ++
          [(name ++ ".txt" ++ "_" ++ stamp ++ ".bak", old)] } := by
    rw [edit_prompt_post, if_neg (not_not_intro hend), hb]
    rfl
  refine ⟨?_, ?_, ?_, ?_, ?_, ?_⟩
  · rw [save_prompt_route, if_neg (not_not_intro hend)]
    show load_prompt (save_prompt_file fs (name ++ ".txt") content) name = _
    rw [load_prompt, save_prompt_file, alookup_dictSet_self]
    rfl
  · rw [save_prompt_route, if_neg (not_not_intro hend)]
  · rw [hedit, load_prompt]
    show (alookup (name ++ ".txt")
      (dictSet fs.prompts (name ++ ".txt") content)).map pyStrip = _
    rw [alookup_dictSet_self]
    rfl
  · rw [hedit]
  · rw [hedit, List.length_append]
    rfl
  · rw [hedit]
    exact alookup_append_self old hfresh

/-- C9 witness: editing an existing prompt file with fresh timestamp. -/
theorem prompt_roundtrip_and_backup_witness :
    load_prompt ((save_prompt_route
        ⟨[("greeting.txt", "  old body  ")], []⟩
        ("greeting" ++ ".txt") "  new body ").2) "greeting" =
      some (pyStrip "  new body ") ∧
    (save_prompt_route ⟨[("greeting.txt", "  old body  ")], []⟩
        ("greeting" ++ ".txt") "  new body ").1 = true ∧
    load_prompt (edit_prompt_post ⟨[("greeting.txt", "  old body  ")], []⟩
        ("greeting" ++ ".txt") "  new body " "20250101_120000") "greeting" =
      some (pyStrip "  new body ") ∧
    (edit_prompt_post ⟨[("greeting.txt", "  old body  ")], []⟩
        ("greeting" ++ ".txt") "  new body " "20250101_120000").backups =
      [] ++ [("greeting" ++ ".txt" ++ "_" ++ "20250101_120000" ++ ".bak",
              "  old body  ")] ∧
    (edit_prompt_post ⟨[("greeting.txt", "  old body  ")], []⟩
        ("greeting" ++ ".txt") "  new body " "20250101_120000").backups.length =
      List.length ([] : List (String × String)) + 1 ∧
    alookup ("greeting" ++ ".txt" ++ "_" ++ "20250101_120000" ++ ".bak")
      (edit_prompt_post ⟨[("greeting.txt", "  old body  ")], []⟩
        ("greeting" ++ ".txt") "  new body " "20250101_120000").backups =
      some "  old body  " :=
  prompt_roundtrip_and_backup ⟨[("greeting.txt", "  old body  ")], []⟩
    "greeting" "  new body " "20250101_120000" "  old body  "
    (by decide) (by decide)

end CareAI
